import Mathlib

/-!
Verification development for the power-web-service repository: a VIN
(vehicle identification number) resolution service.  The repository holds
three program variants:

* a DB-backed service (`fetchNHTSA`, `upsertVehicle`, `getVehicleByVIN`,
  `nhtsaHandler`) that reads through a Postgres table keyed by VIN,
  falling back to the NHTSA vPIC decoder on a miss and caching the result;
* a store-less variant (`nhtsaHandlerNoStore`) that decodes and returns
  without persistence;
* a JD Power client variant (`fetchVIN`) that additionally validates a
  business-status field of the response.

The embedding below is a shallow model of those Go functions.  External
collaborators are modelled as oracles passed in as arguments:

* the network is a `NetResult` value (connection error, request-creation
  error, or a response consisting of an HTTP status and a body read that
  may itself fail), matching the distinct failure points of the Go client
  code;
* JSON deserialization of a response body (`encoding/json.Unmarshal` into
  a typed struct) is a `parse : String → Option _` oracle;
* serialization of the raw payload into the store's `raw` column
  (`json.Marshal` on a `map[string]interface{}` followed by `Unmarshal`
  on read-back) is modelled semantically as the identity round-trip on
  the structured value, so a `Row` stores the structured raw mapping;
* the database is a list of rows keyed by VIN; `db.Exec` upsert failures
  are injected through an `upsertFails` flag on the handler.

JSON scalar values are modelled by `JVal` (the vPIC decoder returns a flat
object of scalar fields).  A Go `map[string]interface{}` lookup on a
missing key yields the `nil` interface, which is modelled as `JVal.null`.
-/

inductive JVal where
  | null : JVal
  | bool (b : Bool) : JVal
  | num (n : Int) : JVal
  | str (s : String) : JVal
deriving DecidableEq

/-- A raw decoder mapping: Go `map[string]interface{}` as an association
list with the usual first-match lookup. -/
abbrev RawMap := List (String × JVal)

/-- Go map indexing `m[k]`: the stored value, or the nil interface
(`JVal.null`) when the key is absent. -/
def mapGet (m : RawMap) (k : String) : JVal :=
  match m.find? (fun p => p.1 == k) with
  | some p => p.2
  | none => JVal.null

/-- The `NHTSAResponse` struct of the vPIC variants: `Count`, `Message`,
`SearchCriteria` and a `Results` array of raw mappings. -/
structure NHTSAResponse where
  Count : Int
  Message : String
  SearchCriteria : String
  Results : List RawMap
deriving DecidableEq

deriving instance DecidableEq for Except

/-- Network oracle for one outbound HTTP attempt: request creation may
fail, the connection may fail, or a response arrives with a status code
and a body whose read may fail. -/
inductive NetResult where
  | reqErr (msg : String) : NetResult
  | connErr (msg : String) : NetResult
  | resp (status : Nat) (body : Except String String) : NetResult
deriving DecidableEq

/-- The vPIC client `fetchNHTSA` of the DB-backed variant: guard the empty
VIN, perform the request, read the body, check the HTTP status (the body
is read before the status is checked, and the status error message embeds
the body), then unmarshal. -/
def fetchNHTSA (net : NetResult) (parse : String → Option NHTSAResponse)
    (vin : String) : Except String NHTSAResponse :=
  if vin = "" then .error "vin vazio"
  else
    match net with
    | .reqErr m => .error ("creating request: " ++ m)
    | .connErr m => .error ("http request: " ++ m)
    | .resp status body =>
      match body with
      | .error m => .error ("read body: " ++ m)
      | .ok b =>
        if status ≠ 200 then
          .error ("nhtsa status " ++ toString status ++ "; body: " ++ b)
        else
          match parse b with
          | none => .error "unmarshal nhtsa json"
          | some nr => .ok nr

/-- The `out` map built by `nhtsaHandler`: the request VIN, the nine
canonical fields drawn from fixed keys of the first result entry, and the
full first entry as the raw payload. -/
structure OutRecord where
  vin : String
  make : JVal
  model : JVal
  model_year : JVal
  manufacturer : JVal
  plant_country : JVal
  plant_state : JVal
  body_class : JVal
  engine_cylinders : JVal
  fuel_type : JVal
  raw : RawMap
deriving DecidableEq

/-- Normalization performed inline in `nhtsaHandler` (both vPIC variants):
take the first entry of `Results` (or an empty map when there is none) and
populate each canonical field from its fixed source key. -/
def buildOut (vin : String) (results : List RawMap) : OutRecord :=
  let flat := results.headD []
  { vin := vin
    make := mapGet flat "Make"
    model := mapGet flat "Model"
    model_year := mapGet flat "ModelYear"
    manufacturer := mapGet flat "Manufacturer"
    plant_country := mapGet flat "PlantCountry"
    plant_state := mapGet flat "PlantState"
    body_class := mapGet flat "BodyClass"
    engine_cylinders := mapGet flat "EngineCylinders"
    fuel_type := mapGet flat "FuelTypePrimary"
    raw := flat }

/-- One row of the `vehicles` table: the nine canonical columns (each a
driver value, `JVal.null` for SQL NULL), the serialized raw payload
(modelled structurally), and the `last_updated` timestamp column, which
the INSERT leaves at its default (`none`) and the ON CONFLICT UPDATE sets
to `now()`. -/
structure Row where
  make : JVal
  model : JVal
  model_year : JVal
  manufacturer : JVal
  plant_country : JVal
  plant_state : JVal
  body_class : JVal
  engine_cylinders : JVal
  fuel_type : JVal
  raw : RawMap
  last_updated : Option Nat
deriving DecidableEq

/-- The `vehicles` table, keyed by its `vin` primary key. -/
abbrev Store := List (String × Row)

/-- The row written for an `out` record, with the given timestamp
column value. -/
def rowOf (out : OutRecord) (ts : Option Nat) : Row :=
  { make := out.make
    model := out.model
    model_year := out.model_year
    manufacturer := out.manufacturer
    plant_country := out.plant_country
    plant_state := out.plant_state
    body_class := out.body_class
    engine_cylinders := out.engine_cylinders
    fuel_type := out.fuel_type
    raw := out.raw
    last_updated := ts }

/-- Primary-key lookup in the table. -/
def lookupRow (s : Store) (vin : String) : Option Row :=
  match s.find? (fun p => p.1 == vin) with
  | some p => some p.2
  | none => none

/-- Replacement of the row under key `k` by `r`, leaving other rows
untouched (the effect of the ON CONFLICT UPDATE on one table row). -/
def updRow (k : String) (r : Row) (p : String × Row) : String × Row :=
  if p.1 = k then (p.1, r) else p

/-- `upsertVehicle`: INSERT the row, or ON CONFLICT (vin) replace every
canonical column and the raw payload and refresh `last_updated` to
`now()` (the `now` argument). -/
def upsertVehicle (s : Store) (out : OutRecord) (now : Nat) : Store :=
  if (lookupRow s out.vin).isSome then
    s.map (updRow out.vin (rowOf out (some now)))
  else
    s ++ [(out.vin, rowOf out none)]

/-- `database/sql` scan of one column value into a Go `string`
destination: a string passes through, a numeric driver value is converted
to its decimal string, SQL NULL and other values are scan errors. -/
def scanString : JVal → Except String String
  | .str s => .ok s
  | .num n => .ok (toString n)
  | .null => .error "sql: Scan error: converting NULL to string is unsupported"
  | .bool _ => .error "sql: Scan error: unsupported driver value"

/-- The map returned by `getVehicleByVIN`: every canonical field scanned
into a Go `string`, plus the unmarshalled raw payload. -/
structure GotRecord where
  vin : String
  make : String
  model : String
  model_year : String
  manufacturer : String
  plant_country : String
  plant_state : String
  body_class : String
  engine_cylinders : String
  fuel_type : String
  raw : RawMap
deriving DecidableEq

/-- `getVehicleByVIN`: SELECT the row by VIN (no row is `sql.ErrNoRows`),
then `Scan` each canonical column into a plain `string` variable — a NULL
column makes the whole scan fail — and unmarshal the raw payload (that
unmarshal error is discarded by the source). -/
def getVehicleByVIN (s : Store) (vin : String) : Except String GotRecord :=
  match lookupRow s vin with
  | none => .error "sql: no rows in result set"
  | some r => do
    let mk ← scanString r.make
    let md ← scanString r.model
    let my ← scanString r.model_year
    let mf ← scanString r.manufacturer
    let pc ← scanString r.plant_country
    let ps ← scanString r.plant_state
    let bc ← scanString r.body_class
    let ec ← scanString r.engine_cylinders
    let ft ← scanString r.fuel_type
    .ok { vin := vin
          make := mk
          model := md
          model_year := my
          manufacturer := mf
          plant_country := pc
          plant_state := ps
          body_class := bc
          engine_cylinders := ec
          fuel_type := ft
          raw := r.raw }

/-- The JSON body written by a handler: 400 on a malformed path, 502 with
the VIN and error message on a decode failure, 200 with either the stored
record (fast path) or the freshly decoded `out` record. -/
inductive HandlerOut where
  | badRequest (msg : String) : HandlerOut
  | badGateway (vin err : String) : HandlerOut
  | okStored (rec : GotRecord) : HandlerOut
  | okDecoded (rec : OutRecord) : HandlerOut
deriving DecidableEq

/-- The route prefix of the vPIC handlers (`const prefix = "/nhtsa/"`). -/
def pfx : String := "/nhtsa/"

/-- The DB-backed `nhtsaHandler`: parse the VIN from the path, try the
store, on a read failure fall through to the decoder, normalize, attempt
the upsert (a failure is only logged: `upsertFails` injects it), and
answer 200 with the decoded record.  Returns the response body together
with the table state after the request. -/
def nhtsaHandler (decode : String → Except String NHTSAResponse)
    (upsertFails : Bool) (s : Store) (path : String) (now : Nat) :
    HandlerOut × Store :=
  if path.length ≤ pfx.length then
    (.badRequest "use /nhtsa/{vin}", s)
  else
    let vin := path.drop pfx.length
    match getVehicleByVIN s vin with
    | .ok v => (.okStored v, s)
    | .error _ =>
      match decode vin with
      | .error e => (.badGateway vin e, s)
      | .ok nresp =>
        let out := buildOut vin nresp.Results
        let s' := if upsertFails then s else upsertVehicle s out now
        (.okDecoded out, s')

/-- The store-less `nhtsaHandler` of the minimal variant: parse the VIN,
decode, normalize, answer — no persistence. -/
def nhtsaHandlerNoStore (decode : String → Except String NHTSAResponse)
    (path : String) : HandlerOut :=
  if path.length ≤ pfx.length then
    .badRequest "use /nhtsa/{vin}"
  else
    let vin := path.drop pfx.length
    match decode vin with
    | .error e => .badGateway vin e
    | .ok nresp => .okDecoded (buildOut vin nresp.Results)

/-- The `Model` struct of the JD Power variant's response schema. -/
structure Model where
  Make : String
  MakeID : String
  Year : Int
  Model : String
  ModelID : Int
  ModelType : String
  ModelNo : String
  MSRP : Int
  LowRetail : Int
  AverageRetail : Int
  LowTrade : Int
  HighTrade : Int
  AverageWholesale : Int
  Transmission : String
  Weight : Int
  EngineCC : Int
  Stroke : Int
  Cylinders : Int
deriving DecidableEq

/-- The nested result object of the JD Power response, carrying the
business `Status` field. -/
structure VINV2Result where
  Status : String
  Models : List Model
  VintageModels : List Model
deriving DecidableEq

/-- The `APIResponse` struct of the JD Power variant. -/
structure APIResponse where
  GetModelsByVINV2Result : VINV2Result
deriving DecidableEq

/-- The JD Power client `fetchVIN`: guard the empty VIN, perform the
request, check the HTTP status (before reading the body, unlike
`fetchNHTSA`), read and unmarshal the body, then validate the business
`Status` field — anything other than `"ExactMatch"` is an error carrying
that status. -/
def fetchVIN (net : NetResult) (parse : String → Option APIResponse)
    (vin : String) : Except String APIResponse :=
  if vin.length = 0 then .error "vin vazio"
  else
    match net with
    | .reqErr m => .error ("criando request: " ++ m)
    | .connErr m => .error ("executando request: " ++ m)
    | .resp status body =>
      if status ≠ 200 then .error ("status HTTP inesperado: " ++ toString status)
      else
        match body with
        | .error m => .error ("lendo corpo: " ++ m)
        | .ok b =>
          match parse b with
          | none => .error "decodificando JSON"
          | some apiResp =>
            if apiResp.GetModelsByVINV2Result.Status ≠ "ExactMatch" then
              .error ("status da API: " ++ apiResp.GetModelsByVINV2Result.Status)
            else
              .ok apiResp

/-- The observable part of a table row: every column except the
`last_updated` timestamp. -/
def rowObs (r : Row) : JVal × JVal × JVal × JVal × JVal × JVal × JVal × JVal × JVal × RawMap :=
  (r.make, r.model, r.model_year, r.manufacturer, r.plant_country,
   r.plant_state, r.body_class, r.engine_cylinders, r.fuel_type, r.raw)

/-- The observable persisted state of the table: each row without its
timestamp column. -/
def storeObs (s : Store) : List (String × (JVal × JVal × JVal × JVal × JVal × JVal × JVal × JVal × JVal × RawMap)) :=
  s.map (fun p => (p.1, rowObs p.2))

/-- The nine fixed source keys of the canonical mapping. -/
def sourceKeys : List String :=
  ["Make", "Model", "ModelYear", "Manufacturer", "PlantCountry",
   "PlantState", "BodyClass", "EngineCylinders", "FuelTypePrimary"]

/-- Whether a raw value is a JSON string. -/
def isStr : JVal → Bool
  | .str _ => true
  | _ => false

/-- Whether every canonical source key of a raw mapping holds a string
value. -/
def allStrings (flat : RawMap) : Bool :=
  sourceKeys.all (fun k => isStr (mapGet flat k))

/-- The raw mapping of the spec's Honda scenario. -/
def hondaFlat : RawMap :=
  [("Make", JVal.str "Honda"), ("Model", JVal.str "Civic"), ("ModelYear", JVal.num 2020)]

/-- A decoder oracle answering every VIN with the Honda scenario
response. -/
def dHonda : String → Except String NHTSAResponse :=
  fun _ => .ok { Count := 1, Message := "ok", SearchCriteria := "", Results := [hondaFlat] }

/-- The normalized record of the Honda scenario. -/
def hondaOut : OutRecord := buildOut "1HGCM82633A004352" [hondaFlat]

/-- A decoder oracle answering with a successful decode carrying zero
result entries. -/
def dEmptyOk : String → Except String NHTSAResponse :=
  fun _ => .ok { Count := 0, Message := "", SearchCriteria := "", Results := [] }

/-- A decoder oracle that always fails. -/
def dBoom : String → Except String NHTSAResponse := fun _ => .error "boom"

/-- The table state after resolving VIN "V" against a decoder that
returned zero result entries: it caches an all-NULL row for "V". -/
def c1Store : Store := (nhtsaHandler dEmptyOk false [] (pfx ++ "V") 0).2

/-- A fully populated stored row (all canonical columns non-NULL). -/
def fullRow : Row :=
  { make := JVal.str "Honda"
    model := JVal.str "Civic"
    model_year := JVal.str "2020"
    manufacturer := JVal.str "HONDA OF AMERICA"
    plant_country := JVal.str "UNITED STATES (USA)"
    plant_state := JVal.str "OHIO"
    body_class := JVal.str "Sedan"
    engine_cylinders := JVal.str "4"
    fuel_type := JVal.str "Gasoline"
    raw := [("Make", JVal.str "Honda")]
    last_updated := some 7 }

/-- The record read back from `fullRow` by the store adapter. -/
def fullGot : GotRecord :=
  { vin := "V"
    make := "Honda"
    model := "Civic"
    model_year := "2020"
    manufacturer := "HONDA OF AMERICA"
    plant_country := "UNITED STATES (USA)"
    plant_state := "OHIO"
    body_class := "Sedan"
    engine_cylinders := "4"
    fuel_type := "Gasoline"
    raw := [("Make", JVal.str "Honda")] }

/-- A raw mapping in which every canonical source key holds a string. -/
def flatAllStr : RawMap :=
  [("Make", JVal.str "HONDA"), ("Model", JVal.str "Civic"),
   ("ModelYear", JVal.str "2020"), ("Manufacturer", JVal.str "HONDA"),
   ("PlantCountry", JVal.str "USA"), ("PlantState", JVal.str "OHIO"),
   ("BodyClass", JVal.str "Sedan"), ("EngineCylinders", JVal.str "4"),
   ("FuelTypePrimary", JVal.str "Gasoline"), ("ErrorCode", JVal.str "0")]

/-- A JD Power response whose business status is a rejection. -/
def noMatchResp : APIResponse :=
  { GetModelsByVINV2Result := { Status := "NoRecordsFound", Models := [], VintageModels := [] } }

theorem strLength_pos {s : String} (h : s ≠ "") : 0 < s.length := by
  cases s with
  | mk data =>
    cases data with
    | nil => exact absurd rfl h
    | cons a l => simp [String.length]

theorem drop_pfx (vin : String) : (pfx ++ vin).drop pfx.length = vin := by
  apply String.ext
  rw [String.data_drop, String.data_append]
  exact List.drop_left' rfl

theorem pfx_length_lt {vin : String} (h : vin ≠ "") :
    ¬((pfx ++ vin).length ≤ pfx.length) := by
  rw [String.length_append]
  have := strLength_pos h
  omega

theorem nhtsaHandler_vinPath (d : String → Except String NHTSAResponse) (u : Bool)
    (s : Store) (vin : String) (now : Nat) (h : vin ≠ "") :
    nhtsaHandler d u s (pfx ++ vin) now =
      match getVehicleByVIN s vin with
      | .ok v => (.okStored v, s)
      | .error _ =>
        match d vin with
        | .error e => (.badGateway vin e, s)
        | .ok nresp =>
          (.okDecoded (buildOut vin nresp.Results),
           if u then s else upsertVehicle s (buildOut vin nresp.Results) now) := by
  unfold nhtsaHandler
  rw [if_neg (pfx_length_lt h), drop_pfx]

theorem nhtsaHandlerNoStore_vinPath (d : String → Except String NHTSAResponse)
    (vin : String) (h : vin ≠ "") :
    nhtsaHandlerNoStore d (pfx ++ vin) =
      match d vin with
      | .error e => .badGateway vin e
      | .ok nresp => .okDecoded (buildOut vin nresp.Results) := by
  unfold nhtsaHandlerNoStore
  rw [if_neg (pfx_length_lt h), drop_pfx]

theorem lookupRow_cons (p : String × Row) (l : Store) (k : String) :
    lookupRow (p :: l) k = if p.1 == k then some p.2 else lookupRow l k := by
  by_cases h : p.1 == k <;> simp [lookupRow, List.find?_cons, h]

theorem lookupRow_append (l₁ l₂ : Store) (k : String) :
    lookupRow (l₁ ++ l₂) k = (lookupRow l₁ k).or (lookupRow l₂ k) := by
  induction l₁ with
  | nil => simp [lookupRow]
  | cons p l ih =>
    rw [List.cons_append, lookupRow_cons, lookupRow_cons]
    by_cases h : p.1 == k <;> simp [h, ih]

theorem lookupRow_map_updRow (s : Store) (k : String) (r : Row) :
    lookupRow (s.map (updRow k r)) k = (lookupRow s k).map (fun _ => r) := by
  induction s with
  | nil => simp [lookupRow]
  | cons p l ih =>
    rw [List.map_cons, lookupRow_cons, lookupRow_cons]
    by_cases h : p.1 = k
    · simp [updRow, h]
    · have hb : (p.1 == k) = false := by simp [h]
      simp [updRow, h, hb, ih]

theorem map_updRow_of_none (s : Store) (k : String) (r : Row)
    (h : lookupRow s k = none) : s.map (updRow k r) = s := by
  induction s with
  | nil => rfl
  | cons p l ih =>
    rw [lookupRow_cons] at h
    by_cases hk : p.1 == k
    · simp [hk] at h
    · simp [hk] at h
      have hk' : ¬(p.1 = k) := by simpa using hk
      simp [updRow, hk', ih h]

theorem map_updRow_updRow (s : Store) (k : String) (r₁ r₂ : Row) :
    (s.map (updRow k r₁)).map (updRow k r₂) = s.map (updRow k r₂) := by
  rw [List.map_map]
  apply List.map_congr_left
  intro p _
  by_cases h : p.1 = k <;> simp [updRow, h, Function.comp]

theorem storeObs_map_updRow (s : Store) (k : String) (r₁ r₂ : Row)
    (h : rowObs r₁ = rowObs r₂) :
    storeObs (s.map (updRow k r₁)) = storeObs (s.map (updRow k r₂)) := by
  unfold storeObs
  rw [List.map_map, List.map_map]
  apply List.map_congr_left
  intro p _
  by_cases hk : p.1 = k <;> simp [updRow, hk, Function.comp, h]

theorem isStr_exists {v : JVal} (h : isStr v = true) : ∃ a, v = JVal.str a := by
  cases v <;> simp [isStr] at h ⊢

theorem upsert_pos (s : Store) (out : OutRecord) (now : Nat)
    (h : (lookupRow s out.vin).isSome) :
    upsertVehicle s out now = s.map (updRow out.vin (rowOf out (some now))) := by
  unfold upsertVehicle
  rw [if_pos h]

theorem upsert_neg (s : Store) (out : OutRecord) (now : Nat)
    (h : ¬(lookupRow s out.vin).isSome) :
    upsertVehicle s out now = s ++ [(out.vin, rowOf out none)] := by
  unfold upsertVehicle
  rw [if_neg h]

theorem lookupRow_upsert_self (s : Store) (out : OutRecord) (now : Nat) :
    lookupRow (upsertVehicle s out now) out.vin =
      some (rowOf out (if (lookupRow s out.vin).isSome then some now else none)) := by
  unfold upsertVehicle
  by_cases h : (lookupRow s out.vin).isSome
  · rw [if_pos h, lookupRow_map_updRow, if_pos h]
    cases hl : lookupRow s out.vin with
    | none => rw [hl] at h; simp at h
    | some r => simp
  · rw [if_neg h, if_neg h, lookupRow_append]
    cases hl : lookupRow s out.vin with
    | none => simp [lookupRow_cons, lookupRow]
    | some r => rw [hl] at h; simp at h

/-- C9: for the empty VIN input, resolution always fails with an
InvalidInput error before any network call and before any store access:
the DB-backed handler answers 400 on the VIN-less path for every decoder
oracle and every table state, leaving the table untouched, and both
clients reject the empty VIN for every network oracle. -/
theorem C9_empty_vin_invalid :
    (∀ (d : String → Except String NHTSAResponse) (u : Bool) (s : Store) (now : Nat),
      nhtsaHandler d u s "/nhtsa/" now = (.badRequest "use /nhtsa/{vin}", s)) ∧
    (∀ (net : NetResult) (p : String → Option NHTSAResponse),
      fetchNHTSA net p "" = .error "vin vazio") ∧
    (∀ (net : NetResult) (p : String → Option APIResponse),
      fetchVIN net p "" = .error "vin vazio") := by
  refine ⟨fun d u s now => ?_, fun net p => ?_, fun net p => ?_⟩
  · unfold nhtsaHandler
    rw [if_pos (by decide)]
  · simp [fetchNHTSA]
  · simp [fetchVIN]

/-- C1 counterexample: the claim fails as stated.  Resolving VIN "V"
against a decoder with zero result entries caches an all-NULL row, so the
store holds a record for "V"; yet a second resolve for "V" surfaces the
decoder's error, i.e. it invoked the external decoder instead of
returning the stored record. -/
theorem C1_counterexample :
    (lookupRow c1Store "V").isSome = true ∧
    (nhtsaHandler dBoom false c1Store (pfx ++ "V") 1).1 =
      HandlerOut.badGateway "V" "boom" := by
  constructor
  · decide
  · decide

/-- C1 (amended): for every non-empty VIN for which the store read
`getVehicleByVIN` succeeds (the row exists and every canonical column is
scannable), `resolve` returns that stored record, leaves the table
unchanged, and never invokes the external decoder: the result is the same
for every decoder oracle. -/
theorem C1_fast_path (d : String → Except String NHTSAResponse) (u : Bool)
    (s : Store) (vin : String) (now : Nat) (v : GotRecord)
    (hvin : vin ≠ "") (hget : getVehicleByVIN s vin = .ok v) :
    nhtsaHandler d u s (pfx ++ vin) now = (.okStored v, s) := by
  rw [nhtsaHandler_vinPath _ _ _ _ _ hvin, hget]

theorem C1_fast_path_witness :
    getVehicleByVIN [("V", fullRow)] "V" = .ok fullGot ∧
    nhtsaHandler dBoom true [("V", fullRow)] (pfx ++ "V") 3 =
      (.okStored fullGot, [("V", fullRow)]) :=
  ⟨by decide, C1_fast_path dBoom true [("V", fullRow)] "V" 3 fullGot (by decide) (by decide)⟩

/-- C3: for every VIN absent from (or unreadable in) the store, when the
external decoder invocation fails — connection error, request error,
body-read error, non-success HTTP status, or unparseable body all make
`fetchNHTSA` return an error — the handler answers 502 with the VIN and
the underlying cause and the table is left exactly as it was. -/
theorem C3_decode_failure_no_write (net : NetResult)
    (p : String → Option NHTSAResponse) (s : Store) (vin msg e : String)
    (u : Bool) (now : Nat) (hvin : vin ≠ "")
    (hget : getVehicleByVIN s vin = .error msg)
    (hdec : fetchNHTSA net p vin = .error e) :
    nhtsaHandler (fetchNHTSA net p) u s (pfx ++ vin) now =
      (.badGateway vin e, s) := by
  rw [nhtsaHandler_vinPath _ _ _ _ _ hvin, hget, hdec]

theorem C3_decode_failure_no_write_witness :
    getVehicleByVIN [] "BADVIN0000000001" = .error "sql: no rows in result set" ∧
    fetchNHTSA (.connErr "timeout") (fun _ => none) "BADVIN0000000001" =
      .error "http request: timeout" ∧
    nhtsaHandler (fetchNHTSA (.connErr "timeout") (fun _ => none)) false []
        (pfx ++ "BADVIN0000000001") 0 =
      (.badGateway "BADVIN0000000001" "http request: timeout", []) :=
  ⟨by decide, by decide,
   C3_decode_failure_no_write (.connErr "timeout") (fun _ => none) []
     "BADVIN0000000001" "sql: no rows in result set" "http request: timeout"
     false 0 (by decide) (by decide) (by decide)⟩

/-- C4: when the decode succeeds, a failing upsert is non-fatal: the
handler still answers 200 with the freshly decoded, normalized record
(the table is simply left unchanged), and the response body is identical
whether the upsert fails or succeeds. -/
theorem C4_upsert_failure_nonfatal (d : String → Except String NHTSAResponse)
    (s : Store) (vin msg : String) (nresp : NHTSAResponse) (now : Nat)
    (hvin : vin ≠ "") (hget : getVehicleByVIN s vin = .error msg)
    (hdec : d vin = .ok nresp) :
    nhtsaHandler d true s (pfx ++ vin) now =
      (.okDecoded (buildOut vin nresp.Results), s) ∧
    (nhtsaHandler d true s (pfx ++ vin) now).1 =
      (nhtsaHandler d false s (pfx ++ vin) now).1 := by
  constructor
  · rw [nhtsaHandler_vinPath _ _ _ _ _ hvin, hget, hdec]
    rfl
  · rw [nhtsaHandler_vinPath _ _ _ _ _ hvin,
        nhtsaHandler_vinPath _ _ _ _ _ hvin, hget, hdec]

theorem C4_upsert_failure_nonfatal_witness :
    getVehicleByVIN [] "1HGCM82633A004352" = .error "sql: no rows in result set" ∧
    dHonda "1HGCM82633A004352" =
      .ok { Count := 1, Message := "ok", SearchCriteria := "", Results := [hondaFlat] } ∧
    nhtsaHandler dHonda true [] (pfx ++ "1HGCM82633A004352") 0 =
      (.okDecoded (buildOut "1HGCM82633A004352" [hondaFlat]), []) :=
  ⟨by decide, by decide,
   (C4_upsert_failure_nonfatal dHonda [] "1HGCM82633A004352"
     "sql: no rows in result set"
     { Count := 1, Message := "ok", SearchCriteria := "", Results := [hondaFlat] }
     0 (by decide) (by decide) (by decide)).1⟩

/-- C5: when the decoder call succeeds with zero result entries, the
handler treats it as a successful decode — answering 200 with a record
whose canonical fields are all absent and whose raw payload is empty —
and still writes that empty record to the store. -/
theorem C5_empty_results_cached (d : String → Except String NHTSAResponse)
    (s : Store) (vin msg : String) (nresp : NHTSAResponse) (now : Nat)
    (hvin : vin ≠ "") (hget : getVehicleByVIN s vin = .error msg)
    (hdec : d vin = .ok nresp) (hres : nresp.Results = []) :
    nhtsaHandler d false s (pfx ++ vin) now =
      (.okDecoded (buildOut vin []), upsertVehicle s (buildOut vin []) now) ∧
    buildOut vin [] =
      { vin := vin, make := JVal.null, model := JVal.null
        model_year := JVal.null, manufacturer := JVal.null
        plant_country := JVal.null, plant_state := JVal.null
        body_class := JVal.null, engine_cylinders := JVal.null
        fuel_type := JVal.null, raw := [] } ∧
    lookupRow (upsertVehicle s (buildOut vin []) now) vin =
      some (rowOf (buildOut vin [])
        (if (lookupRow s vin).isSome then some now else none)) := by
  refine ⟨?_, rfl, lookupRow_upsert_self s (buildOut vin []) now⟩
  rw [nhtsaHandler_vinPath _ _ _ _ _ hvin, hget, hdec]
  simp [hres]

theorem C5_empty_results_cached_witness :
    getVehicleByVIN [] "NOVIN00000000000" = .error "sql: no rows in result set" ∧
    dEmptyOk "NOVIN00000000000" =
      .ok { Count := 0, Message := "", SearchCriteria := "", Results := [] } ∧
    nhtsaHandler dEmptyOk false [] (pfx ++ "NOVIN00000000000") 2 =
      (.okDecoded (buildOut "NOVIN00000000000" []),
       upsertVehicle [] (buildOut "NOVIN00000000000" []) 2) :=
  ⟨by decide, by decide,
   (C5_empty_results_cached dEmptyOk [] "NOVIN00000000000"
     "sql: no rows in result set"
     { Count := 0, Message := "", SearchCriteria := "", Results := [] }
     2 (by decide) (by decide) (by decide) (by decide)).1⟩

/-- C2: normalization populates each canonical field from its fixed
source key, a missing source key yields an absent canonical field, the
full raw mapping is retained verbatim, and the record is keyed by the
request VIN; in the Honda scenario with an empty store, resolve answers
200 with make "Honda", model "Civic", model year 2020, all other
canonical fields absent, and the store then contains that VIN. -/
theorem C2_normalization_mapping :
    (∀ (vin : String) (results : List RawMap),
      buildOut vin results =
        { vin := vin
          make := mapGet (results.headD []) "Make"
          model := mapGet (results.headD []) "Model"
          model_year := mapGet (results.headD []) "ModelYear"
          manufacturer := mapGet (results.headD []) "Manufacturer"
          plant_country := mapGet (results.headD []) "PlantCountry"
          plant_state := mapGet (results.headD []) "PlantState"
          body_class := mapGet (results.headD []) "BodyClass"
          engine_cylinders := mapGet (results.headD []) "EngineCylinders"
          fuel_type := mapGet (results.headD []) "FuelTypePrimary"
          raw := results.headD [] }) ∧
    (∀ (flat : RawMap) (k : String),
      flat.find? (fun p => p.1 == k) = none → mapGet flat k = JVal.null) ∧
    hondaOut =
      { vin := "1HGCM82633A004352", make := JVal.str "Honda"
        model := JVal.str "Civic", model_year := JVal.num 2020
        manufacturer := JVal.null, plant_country := JVal.null
        plant_state := JVal.null, body_class := JVal.null
        engine_cylinders := JVal.null, fuel_type := JVal.null
        raw := hondaFlat } ∧
    nhtsaHandler dHonda false [] (pfx ++ "1HGCM82633A004352") 0 =
      (.okDecoded hondaOut, [("1HGCM82633A004352", rowOf hondaOut none)]) ∧
    (lookupRow [("1HGCM82633A004352", rowOf hondaOut none)] "1HGCM82633A004352").isSome = true := by
  refine ⟨fun vin results => rfl, fun flat k h => ?_, by decide, by decide, by decide⟩
  unfold mapGet
  rw [h]

theorem C2_normalization_mapping_witness :
    mapGet [("Make", JVal.str "Honda")] "Manufacturer" = JVal.null :=
  C2_normalization_mapping.2.1 [("Make", JVal.str "Honda")] "Manufacturer" (by decide)

/-- C10: when a successful decoder response carries two or more result
entries, normalization uses only the first entry: the normalized record,
the handler's 200 response and the upserted row are identical to those of
a response carrying only the first entry, in both the DB-backed and the
store-less variants. -/
theorem C10_first_result_only :
    (∀ (vin : String) (r0 : RawMap) (rest : List RawMap),
      buildOut vin (r0 :: rest) = buildOut vin [r0]) ∧
    (∀ (d : String → Except String NHTSAResponse) (u : Bool) (s : Store)
        (vin msg : String) (now : Nat) (nresp : NHTSAResponse)
        (r0 : RawMap) (rest : List RawMap),
      vin ≠ "" → getVehicleByVIN s vin = .error msg → d vin = .ok nresp →
      nresp.Results = r0 :: rest →
      nhtsaHandler d u s (pfx ++ vin) now =
        (.okDecoded (buildOut vin [r0]),
         if u then s else upsertVehicle s (buildOut vin [r0]) now)) ∧
    (∀ (d : String → Except String NHTSAResponse) (vin : String)
        (nresp : NHTSAResponse) (r0 : RawMap) (rest : List RawMap),
      vin ≠ "" → d vin = .ok nresp → nresp.Results = r0 :: rest →
      nhtsaHandlerNoStore d (pfx ++ vin) = .okDecoded (buildOut vin [r0])) := by
  refine ⟨fun vin r0 rest => rfl, ?_, ?_⟩
  · intro d u s vin msg now nresp r0 rest hvin hget hdec hres
    rw [nhtsaHandler_vinPath _ _ _ _ _ hvin, hget, hdec]
    simp [hres]
    exact ⟨rfl, rfl⟩
  · intro d vin nresp r0 rest hvin hdec hres
    rw [nhtsaHandlerNoStore_vinPath _ _ hvin, hdec]
    simp [hres]
    rfl

theorem C10_first_result_only_witness :
    nhtsaHandler
        (fun _ => .ok { Count := 2, Message := "", SearchCriteria := ""
                        Results := [[("Make", JVal.str "A")], [("Make", JVal.str "B")]] })
        false [] (pfx ++ "V") 0 =
      (.okDecoded (buildOut "V" [[("Make", JVal.str "A")]]),
       upsertVehicle [] (buildOut "V" [[("Make", JVal.str "A")]]) 0) :=
  C10_first_result_only.2.1
    (fun _ => .ok { Count := 2, Message := "", SearchCriteria := ""
                    Results := [[("Make", JVal.str "A")], [("Make", JVal.str "B")]] })
    false [] "V" "sql: no rows in result set" 0
    { Count := 2, Message := "", SearchCriteria := ""
      Results := [[("Make", JVal.str "A")], [("Make", JVal.str "B")]] }
    [("Make", JVal.str "A")] [[("Make", JVal.str "B")]]
    (by decide) (by decide) (by decide) (by decide)

/-- C6: in the JD Power decoder-client variant, a response whose business
status field is not "ExactMatch" makes `fetchVIN` return a typed failure
carrying that status, even though the HTTP transport returned 200 and the
body parsed correctly. -/
theorem C6_business_status_rejected (p : String → Option APIResponse)
    (vin b : String) (apiResp : APIResponse) (hvin : ¬(vin.length = 0))
    (hp : p b = some apiResp)
    (hs : apiResp.GetModelsByVINV2Result.Status ≠ "ExactMatch") :
    fetchVIN (.resp 200 (.ok b)) p vin =
      .error ("status da API: " ++ apiResp.GetModelsByVINV2Result.Status) := by
  simp [fetchVIN, hvin, hp, hs]

theorem C6_business_status_rejected_witness :
    fetchVIN (.resp 200 (.ok "body")) (fun _ => some noMatchResp) "JS1GR7MA8J2100001" =
      .error ("status da API: " ++ "NoRecordsFound") :=
  C6_business_status_rejected (fun _ => some noMatchResp) "JS1GR7MA8J2100001"
    "body" noMatchResp (by decide) rfl (by decide)

/-- C7: `upsertVehicle` is idempotent on the observable persisted state —
two upserts of the same record leave the table observably as one upsert
does (last-write-wins on the `last_updated` timestamp, which is excluded
from the observation) — and it creates the row when the VIN is absent, or
replaces all canonical fields and the raw payload in place when it is
present. -/
theorem C7_upsert_idempotent (s : Store) (out : OutRecord) (t₁ t₂ t₃ now : Nat) :
    storeObs (upsertVehicle (upsertVehicle s out t₁) out t₂) =
      storeObs (upsertVehicle s out t₃) ∧
    (lookupRow s out.vin = none →
      upsertVehicle s out now = s ++ [(out.vin, rowOf out none)]) ∧
    ((lookupRow s out.vin).isSome = true →
      upsertVehicle s out now = s.map (updRow out.vin (rowOf out (some now)))) ∧
    lookupRow (upsertVehicle s out now) out.vin =
      some (rowOf out (if (lookupRow s out.vin).isSome then some now else none)) := by
  refine ⟨?_, fun h => upsert_neg s out now (by simp [h]),
    fun h => upsert_pos s out now h, lookupRow_upsert_self s out now⟩
  by_cases h : (lookupRow s out.vin).isSome
  · obtain ⟨r, hr⟩ := Option.isSome_iff_exists.mp h
    have hl : (lookupRow (upsertVehicle s out t₁) out.vin).isSome := by
      rw [upsert_pos s out t₁ h, lookupRow_map_updRow, hr]
      rfl
    rw [upsert_pos _ out t₂ hl, upsert_pos s out t₁ h, map_updRow_updRow,
        upsert_pos s out t₃ h]
    exact storeObs_map_updRow s out.vin _ _ rfl
  · have hn : lookupRow s out.vin = none := Option.not_isSome_iff_eq_none.mp h
    have hl : (lookupRow (upsertVehicle s out t₁) out.vin).isSome := by
      rw [upsert_neg s out t₁ h, lookupRow_append, hn, lookupRow_cons]
      simp
    rw [upsert_pos _ out t₂ hl, upsert_neg s out t₁ h, upsert_neg s out t₃ h,
        List.map_append, map_updRow_of_none s out.vin _ hn]
    simp [storeObs, updRow, rowObs, rowOf]

theorem C7_upsert_idempotent_witness :
    upsertVehicle [] hondaOut 5 = [("1HGCM82633A004352", rowOf hondaOut none)] ∧
    upsertVehicle [("1HGCM82633A004352", rowOf hondaOut none)] hondaOut 9 =
      [("1HGCM82633A004352", rowOf hondaOut (some 9))] :=
  ⟨(C7_upsert_idempotent [] hondaOut 1 2 3 5).2.1 rfl,
   by
    have h := (C7_upsert_idempotent [("1HGCM82633A004352", rowOf hondaOut none)]
      hondaOut 1 2 3 9).2.2.1 (by decide)
    rw [h]
    decide⟩

/-- C8 counterexample: the round-trip claim fails as stated.  For the
raw decoder response with no fields at all, normalization stores SQL NULL
in every canonical column, and `getVehicleByVIN` then fails to scan the
row back — the read-back yields an error, not the record. -/
theorem C8_roundtrip_counterexample :
    getVehicleByVIN (upsertVehicle [] (buildOut "V" [[]]) 0) "V" =
      .error "sql: Scan error: converting NULL to string is unsupported" := by
  decide

/-- C8 (amended): for every raw decoder response in which each of the
nine fixed source keys holds a string value, normalizing, upserting and
reading back with `getVehicleByVIN` succeeds and yields canonical fields
equal to the direct fixed-key mapping applied to the original response,
and a raw payload equal to the original response. -/
theorem C8_roundtrip (s : Store) (vin : String) (flat : RawMap) (now : Nat)
    (h : allStrings flat = true) :
    ∃ got : GotRecord,
      getVehicleByVIN (upsertVehicle s (buildOut vin [flat]) now) vin = .ok got ∧
      got.vin = vin ∧
      JVal.str got.make = mapGet flat "Make" ∧
      JVal.str got.model = mapGet flat "Model" ∧
      JVal.str got.model_year = mapGet flat "ModelYear" ∧
      JVal.str got.manufacturer = mapGet flat "Manufacturer" ∧
      JVal.str got.plant_country = mapGet flat "PlantCountry" ∧
      JVal.str got.plant_state = mapGet flat "PlantState" ∧
      JVal.str got.body_class = mapGet flat "BodyClass" ∧
      JVal.str got.engine_cylinders = mapGet flat "EngineCylinders" ∧
      JVal.str got.fuel_type = mapGet flat "FuelTypePrimary" ∧
      got.raw = flat := by
  simp only [allStrings, sourceKeys, List.all_cons, List.all_nil,
    Bool.and_eq_true, Bool.and_true] at h
  obtain ⟨h1, h2, h3, h4, h5, h6, h7, h8, h9⟩ := h
  obtain ⟨a1, e1⟩ := isStr_exists h1
  obtain ⟨a2, e2⟩ := isStr_exists h2
  obtain ⟨a3, e3⟩ := isStr_exists h3
  obtain ⟨a4, e4⟩ := isStr_exists h4
  obtain ⟨a5, e5⟩ := isStr_exists h5
  obtain ⟨a6, e6⟩ := isStr_exists h6
  obtain ⟨a7, e7⟩ := isStr_exists h7
  obtain ⟨a8, e8⟩ := isStr_exists h8
  obtain ⟨a9, e9⟩ := isStr_exists h9
  have hlook : lookupRow (upsertVehicle s (buildOut vin [flat]) now) vin =
      some (rowOf (buildOut vin [flat])
        (if (lookupRow s vin).isSome then some now else none)) :=
    lookupRow_upsert_self s (buildOut vin [flat]) now
  refine ⟨{ vin := vin, make := a1, model := a2, model_year := a3
            manufacturer := a4, plant_country := a5, plant_state := a6
            body_class := a7, engine_cylinders := a8, fuel_type := a9
            raw := flat },
    ?_, rfl, e1.symm, e2.symm, e3.symm, e4.symm, e5.symm, e6.symm, e7.symm,
    e8.symm, e9.symm, rfl⟩
  have hr : rowOf (buildOut vin [flat])
      (if (lookupRow s vin).isSome then some now else none) =
      { make := JVal.str a1, model := JVal.str a2, model_year := JVal.str a3
        manufacturer := JVal.str a4, plant_country := JVal.str a5
        plant_state := JVal.str a6, body_class := JVal.str a7
        engine_cylinders := JVal.str a8, fuel_type := JVal.str a9
        raw := flat
        last_updated := if (lookupRow s vin).isSome then some now else none } := by
    simp [rowOf, buildOut, e1, e2, e3, e4, e5, e6, e7, e8, e9]
  unfold getVehicleByVIN
  rw [hlook, hr]
  rfl

theorem C8_roundtrip_witness :
    allStrings flatAllStr = true ∧
    (∃ got : GotRecord,
      getVehicleByVIN (upsertVehicle [] (buildOut "W" [flatAllStr]) 4) "W" = .ok got ∧
      got.vin = "W" ∧
      JVal.str got.make = mapGet flatAllStr "Make" ∧
      JVal.str got.model = mapGet flatAllStr "Model" ∧
      JVal.str got.model_year = mapGet flatAllStr "ModelYear" ∧
      JVal.str got.manufacturer = mapGet flatAllStr "Manufacturer" ∧
      JVal.str got.plant_country = mapGet flatAllStr "PlantCountry" ∧
      JVal.str got.plant_state = mapGet flatAllStr "PlantState" ∧
      JVal.str got.body_class = mapGet flatAllStr "BodyClass" ∧
      JVal.str got.engine_cylinders = mapGet flatAllStr "EngineCylinders" ∧
      JVal.str got.fuel_type = mapGet flatAllStr "FuelTypePrimary" ∧
      got.raw = flatAllStr) :=
  ⟨by decide, C8_roundtrip [] "W" flatAllStr 4 (by decide)⟩
